import Mathlib

/-
  Verification development for the game-agent repository.

  The definitions below are shallow embeddings of the repository's own code:
  - src/game_agent/agent.py   (GameAgent._process_screenshot, _call_model, run)
  - src/game_agent/__init__.py (main: startup, push-to-talk loop, amplitude gate)
  - src/game_agent/stt.py     (SpeechToText.record_audio, listen_and_transcribe)
  - src/game_agent/tools.py   (take_screenshot, take_region_screenshot)

  Python values are modelled by the inductive type PyVal; json.loads is
  modelled by an executable JSON parser (jsonLoads); machine 16-bit integer
  arithmetic (numpy int16) is modelled on Int with explicit wrapping
  modulo 2^16; float samples are modelled on the rationals.
-/

namespace GameAgent

/-- Model of a Python value as it occurs in tool payloads: None, bool,
finite number, the non-finite floats nan, inf and -inf (vinf true is the
negative one) that json.loads produces for the NaN, Infinity and
-Infinity constants it accepts by default, str, list, dict. -/
inductive PyVal : Type where
  | vnull : PyVal
  | vbool : Bool → PyVal
  | vnum : ℚ → PyVal
  | vnan : PyVal
  | vinf : Bool → PyVal
  | vstr : String → PyVal
  | vlist : List PyVal → PyVal
  | vdict : List (String × PyVal) → PyVal

/-- Python dict key lookup (`result["base64"]`, `"base64" in result`). -/
def dictLookup (kvs : List (String × PyVal)) (k : String) : Option PyVal :=
  match kvs with
  | [] => none
  | (k2, v) :: rest => if k2 = k then some v else dictLookup rest k

/-- Python dict insertion: a repeated key keeps its position and the last
value, as json.loads builds objects. -/
def dictInsert (kvs : List (String × PyVal)) (k : String) (v : PyVal) :
    List (String × PyVal) :=
  match kvs with
  | [] => [(k, v)]
  | (k2, v2) :: rest =>
    if k2 = k then (k2, v) :: rest else (k2, v2) :: dictInsert rest k v

/-- The opening-brace character, written by code point. -/
def lbrace : Char := Char.ofNat 123

/-- The closing-brace character, written by code point. -/
def rbrace : Char := Char.ofNat 125

/-- JSON whitespace. -/
def isWsChar (c : Char) : Bool :=
  c == ' ' || c == '\t' || c == '\n' || c == '\r'

/-- Drop leading JSON whitespace. -/
def skipWs : List Char → List Char
  | [] => []
  | c :: cs => if isWsChar c then skipWs cs else c :: cs

/-- Decimal digit value. -/
def digitVal (c : Char) : Option Nat :=
  if '0' ≤ c ∧ c ≤ '9' then some (c.toNat - 48) else none

/-- Hexadecimal digit value (for \u escapes). -/
def hexVal (c : Char) : Option Nat :=
  if '0' ≤ c ∧ c ≤ '9' then some (c.toNat - 48)
  else if 'a' ≤ c ∧ c ≤ 'f' then some (c.toNat - 87)
  else if 'A' ≤ c ∧ c ≤ 'F' then some (c.toNat - 55)
  else none

/-- Single-character JSON string escapes. -/
def escChar (c : Char) : Option Char :=
  if c = '"' then some '"'
  else if c = '\\' then some '\\'
  else if c = '/' then some '/'
  else if c = 'b' then some (Char.ofNat 8)
  else if c = 'f' then some (Char.ofNat 12)
  else if c = 'n' then some '\n'
  else if c = 'r' then some '\r'
  else if c = 't' then some '\t'
  else none

/-- Parse the body of a JSON string after the opening quote; returns the
decoded characters and the remaining input.  As json.loads in its default
strict mode, a raw control character (code point below 32) inside the
string is a parse error. -/
def parseStrBody : Nat → List Char → Option (List Char × List Char)
  | 0, _ => none
  | _, [] => none
  | fuel + 1, c :: cs =>
    if c = '"' then some ([], cs)
    else if c = '\\' then
      match cs with
      | [] => none
      | e :: cs2 =>
        if e = 'u' then
          match cs2 with
          | a :: b :: c3 :: d :: cs3 =>
            match hexVal a, hexVal b, hexVal c3, hexVal d with
            | some ha, some hb, some hc, some hd =>
              match parseStrBody fuel cs3 with
              | some (tail, rest) =>
                some (Char.ofNat (((ha * 16 + hb) * 16 + hc) * 16 + hd) :: tail,
                  rest)
              | none => none
            | _, _, _, _ => none
          | _ => none
        else
          match escChar e with
          | some d =>
            match parseStrBody fuel cs2 with
            | some (tail, rest) => some (d :: tail, rest)
            | none => none
          | none => none
    else if c.toNat < 32 then none
    else
      match parseStrBody fuel cs with
      | some (tail, rest) => some (c :: tail, rest)
      | none => none

/-- Greedily take decimal digits. -/
def takeDigits : List Char → List Nat × List Char
  | [] => ([], [])
  | c :: cs =>
    match digitVal c with
    | some d =>
      let p := takeDigits cs
      (d :: p.1, p.2)
    | none => ([], c :: cs)

/-- Digits to a natural number. -/
def digitsToNat (ds : List Nat) : Nat :=
  ds.foldl (fun acc d => acc * 10 + d) 0

/-- Parse a JSON number (integer part, optional fraction, optional
exponent), yielding an exact rational. -/
def parseNumber (cs : List Char) : Option (ℚ × List Char) :=
  let signed : Bool × List Char :=
    match cs with
    | c :: rest => if c = '-' then (true, rest) else (false, cs)
    | [] => (false, [])
  match takeDigits signed.2 with
  | ([], _) => none
  | (d0 :: ds, cs2) =>
    if d0 = 0 ∧ ds ≠ [] then none
    else
      let intPart : ℚ := (digitsToNat (d0 :: ds) : ℚ)
      let fracStep : Option (ℚ × List Char) :=
        match cs2 with
        | '.' :: cs2a =>
          match takeDigits cs2a with
          | ([], _) => none
          | (fd :: fds, cs3) =>
            some (intPart +
              (digitsToNat (fd :: fds) : ℚ) / ((10 : ℚ) ^ (fd :: fds).length),
              cs3)
        | _ => some (intPart, cs2)
      match fracStep with
      | none => none
      | some (mant, cs4) =>
        let expStep : Option (ℚ × List Char) :=
          match cs4 with
          | e :: cs4a =>
            if e = 'e' ∨ e = 'E' then
              let esigned : Bool × List Char :=
                match cs4a with
                | s :: cs4b =>
                  if s = '+' then (false, cs4b)
                  else if s = '-' then (true, cs4b)
                  else (false, cs4a)
                | [] => (false, [])
              match takeDigits esigned.2 with
              | ([], _) => none
              | (ed :: eds, cs5) =>
                let ev : Nat := digitsToNat (ed :: eds)
                if esigned.1 then some (mant / ((10 : ℚ) ^ ev), cs5)
                else some (mant * ((10 : ℚ) ^ ev), cs5)
            else some (mant, cs4)
          | [] => some (mant, cs4)
        match expStep with
        | none => none
        | some (value, cs6) =>
          if signed.1 then some (-value, cs6) else some (value, cs6)

mutual

/-- Parse one JSON value (model of the recursive descent inside
json.loads, including the NaN, Infinity and -Infinity constants the
default scanner accepts as floats). The fuel strictly exceeds the input
length, which is enough because every recursive step consumes at least
one character. -/
def parseVal : Nat → List Char → Option (PyVal × List Char)
  | 0, _ => none
  | fuel + 1, cs =>
    match skipWs cs with
    | [] => none
    | c :: cs1 =>
      if c = '"' then
        match parseStrBody (cs1.length + 1) cs1 with
        | some (content, rest) => some (.vstr (String.mk content), rest)
        | none => none
      else if c = lbrace then
        match skipWs cs1 with
        | c2 :: cs2 =>
          if c2 = rbrace then some (.vdict [], cs2)
          else parseMembers fuel (c2 :: cs2) []
        | [] => none
      else if c = '[' then
        match skipWs cs1 with
        | c2 :: cs2 =>
          if c2 = ']' then some (.vlist [], cs2)
          else parseElems fuel (c2 :: cs2) []
        | [] => none
      else if c = 't' then
        match cs1 with
        | 'r' :: 'u' :: 'e' :: rest => some (.vbool true, rest)
        | _ => none
      else if c = 'f' then
        match cs1 with
        | 'a' :: 'l' :: 's' :: 'e' :: rest => some (.vbool false, rest)
        | _ => none
      else if c = 'n' then
        match cs1 with
        | 'u' :: 'l' :: 'l' :: rest => some (.vnull, rest)
        | _ => none
      else if c = 'N' then
        match cs1 with
        | 'a' :: 'N' :: rest => some (.vnan, rest)
        | _ => none
      else if c = 'I' then
        match cs1 with
        | 'n' :: 'f' :: 'i' :: 'n' :: 'i' :: 't' :: 'y' :: rest =>
          some (.vinf false, rest)
        | _ => none
      else if c = '-' then
        match cs1 with
        | 'I' :: 'n' :: 'f' :: 'i' :: 'n' :: 'i' :: 't' :: 'y' :: rest =>
          some (.vinf true, rest)
        | _ =>
          match parseNumber (c :: cs1) with
          | some (q, rest) => some (.vnum q, rest)
          | none => none
      else
        match parseNumber (c :: cs1) with
        | some (q, rest) => some (.vnum q, rest)
        | none => none

/-- Parse the members of a JSON object after the opening brace. -/
def parseMembers : Nat → List Char → List (String × PyVal) →
    Option (PyVal × List Char)
  | 0, _, _ => none
  | fuel + 1, cs, acc =>
    match skipWs cs with
    | c :: cs1 =>
      if c = '"' then
        match parseStrBody (cs1.length + 1) cs1 with
        | some (key, cs2) =>
          match skipWs cs2 with
          | ':' :: cs3 =>
            match parseVal fuel cs3 with
            | some (v, cs4) =>
              let acc2 := dictInsert acc (String.mk key) v
              match skipWs cs4 with
              | ',' :: cs5 => parseMembers fuel cs5 acc2
              | c6 :: cs6 =>
                if c6 = rbrace then some (.vdict acc2, cs6) else none
              | [] => none
            | none => none
          | _ => none
        | none => none
      else none
    | [] => none

/-- Parse the elements of a JSON array after the opening bracket. -/
def parseElems : Nat → List Char → List PyVal → Option (PyVal × List Char)
  | 0, _, _ => none
  | fuel + 1, cs, acc =>
    match parseVal fuel cs with
    | some (v, cs1) =>
      let acc2 := acc ++ [v]
      match skipWs cs1 with
      | ',' :: cs2 => parseElems fuel cs2 acc2
      | c3 :: cs3 => if c3 = ']' then some (.vlist acc2, cs3) else none
      | [] => none
    | none => none

end

/-- Model of Python json.loads: parse the whole string, requiring only
whitespace after the value; any failure is a JSONDecodeError. -/
def jsonLoads (s : String) : Except Unit PyVal :=
  match parseVal (s.data.length + 1) s.data with
  | some (v, rest) =>
    match skipWs rest with
    | [] => .ok v
    | _ :: _ => .error ()
  | none => .error ()

/-- The kind of a LangChain message (its Python class). -/
inductive MsgKind : Type where
  | system | human | ai | tool
  deriving DecidableEq

/-- A conversation message as _process_screenshot sees it.  The name field
models the Python attribute: none when the object has no name attribute
at all (hasattr false), some none when the attribute is None (the default
for HumanMessage and AIMessage), some (some s) when it is the string s
(ToolNode sets it to the tool's name). -/
structure Msg : Type where
  kind : MsgKind
  name : Option (Option String)
  content : PyVal

/-- The uncaught Python exceptions _process_screenshot can raise. -/
inductive PyErr : Type where
  | attributeError | typeError
  deriving DecidableEq

/-- ASCII lowering, as str.lower acts on tool names. -/
def lowerChar (c : Char) : Char :=
  if 'A' ≤ c ∧ c ≤ 'Z' then Char.ofNat (c.toNat + 32) else c

/-- Model of str.lower. -/
def lowerStr (s : String) : String := String.mk (s.data.map lowerChar)

/-- Does p occur at the start of s? -/
def matchesAt (p s : List Char) : Bool :=
  match p, s with
  | [], _ => true
  | _ :: _, [] => false
  | a :: ps, b :: ss => a == b && matchesAt ps ss

/-- Python substring test (p in s). -/
def containsSeq (p : List Char) : List Char → Bool
  | [] => matchesAt p []
  | c :: cs => matchesAt p (c :: cs) || containsSeq p cs

/-- The guard hasattr(msg, "name") and "screenshot" in msg.name.lower().
A missing attribute short-circuits to False; a None name raises
AttributeError at the .lower() call, outside the try block. -/
def nameCheck (m : Msg) : Except PyErr Bool :=
  match m.name with
  | none => .ok false
  | some none => .error .attributeError
  | some (some s) => .ok (containsSeq "screenshot".data (lowerStr s).data)

/-- Does len() apply to this Python value? str, list and dict do;
None, bool and numbers raise TypeError. -/
def hasLen : PyVal → Bool
  | .vstr _ => true
  | .vlist _ => true
  | .vdict _ => true
  | _ => false

/-- Outcome of one iteration of the scanning loop in _process_screenshot:
fall through to the next message, break with a found base64 payload, or
raise an uncaught exception. -/
inductive ScanStep : Type where
  | skip
  | found (b64 : PyVal)
  | raise (e : PyErr)

/-- The try block of _process_screenshot for one screenshot-named message:
parse string content with json.loads (a parse failure is a caught
JSONDecodeError); call result.keys(), which raises an uncaught
AttributeError unless the result is a dict; if "base64" is present, call
len() on its value (an uncaught TypeError when it has no length) and
report it found; otherwise fall through without breaking. -/
def scanPayload (content : PyVal) : ScanStep :=
  let parsed : Except Unit PyVal :=
    match content with
    | .vstr s => jsonLoads s
    | v => .ok v
  match parsed with
  | .error _ => .skip
  | .ok (.vdict kvs) =>
    match dictLookup kvs "base64" with
    | some b => if hasLen b then .found b else .raise .typeError
    | none => .skip
  | .ok _ => .raise .attributeError

/-- One iteration of the scanning loop on one message. -/
def scanMsg (m : Msg) : ScanStep :=
  match nameCheck m with
  | .error e => .raise e
  | .ok false => .skip
  | .ok true => scanPayload m.content

/-- A single quote character, written by code point. -/
def squote : String := String.mk [Char.ofNat 39]

mutual

/-- Python repr of a modelled value, used for values nested inside
containers when an f-string formats them. -/
def pyRepr : PyVal → String
  | .vnull => "None"
  | .vbool b => if b then "True" else "False"
  | .vnum q => if q.den = 1 then toString q.num else toString q
  | .vnan => "nan"
  | .vinf b => if b then "-inf" else "inf"
  | .vstr s => squote ++ s ++ squote
  | .vlist xs => "[" ++ pyReprList xs ++ "]"
  | .vdict kvs =>
    String.mk [lbrace] ++ pyReprDict kvs ++ String.mk [rbrace]

/-- repr of the elements of a list. -/
def pyReprList : List PyVal → String
  | [] => ""
  | [v] => pyRepr v
  | v :: rest => pyRepr v ++ ", " ++ pyReprList rest

/-- repr of the items of a dict. -/
def pyReprDict : List (String × PyVal) → String
  | [] => ""
  | [(k, v)] => squote ++ k ++ squote ++ ": " ++ pyRepr v
  | (k, v) :: rest =>
    squote ++ k ++ squote ++ ": " ++ pyRepr v ++ ", " ++ pyReprDict rest

end

/-- Python str() as an f-string applies it: a string stays itself, any
other value is shown by its repr. -/
def pyStr : PyVal → String
  | .vstr s => s
  | v => pyRepr v

/-- The HumanMessage built around a found base64 payload
(lines 188-201 of agent.py). -/
def imageMessage (b64 : PyVal) : Msg :=
  { kind := .human
    name := some none
    content := .vlist
      [ .vdict [("type", .vstr "text"),
                ("text", .vstr "Here is the screenshot. Please analyze it:")]
      , .vdict [("type", .vstr "image_url"),
                ("image_url", .vdict
                  [("url", .vstr ("data:image/png;base64," ++ pyStr b64))])] ] }

/-- The scanning loop of _process_screenshot over the reversed transcript:
the first message that is not skipped either yields the single image
message or raises. -/
def scanLoop : List Msg → Except PyErr (List Msg)
  | [] => .ok []
  | m :: rest =>
    match scanMsg m with
    | .skip => scanLoop rest
    | .found b => .ok [imageMessage b]
    | .raise e => .error e

/-- GameAgent._process_screenshot: scan the transcript from the most
recent message backwards and return the list of messages to append
(empty, or exactly one image message), or the uncaught exception. -/
def processScreenshot (messages : List Msg) : Except PyErr (List Msg) :=
  scanLoop messages.reverse

/-- The fixed system prompt of GameAgent._call_model
(lines 88-124 of agent.py). -/
def systemPromptText : String :=
  "Você é um assistente de análise de jogos com capacidade de capturar tela.\n\nINSTRUÇÕES CRÍTICAS:\n- SEMPRE use a ferramenta take_screenshot quando o usuário perguntar sobre o que está na tela\n- Você DEVE chamar take_screenshot() sempre que for pedido para analisar, ver, ler ou interpretar algo visual\n- NUNCA peça ao usuário para fornecer um screenshot - VOCÊ tira ele mesmo\n- O usuário está pedindo para VOCÊ capturar a tela dele, não para fornecer algo\n\nSuas ferramentas:\n1. take_screenshot() - Captura a tela inteira. USE ISSO IMEDIATAMENTE quando perguntado \"o que você vê\", \"analise isso\", \"leia esse texto\", etc.\n2. take_region_screenshot(x, y, width, height) - Captura uma região específica\n\nFluxo de trabalho:\n1. Usuário pergunta: \"o que tem na tela?\" ou \"analise esse jogo\" ou \"leia esse texto\"\n2. VOCÊ IMEDIATAMENTE chama take_screenshot()\n3. Depois que o screenshot for capturado, você irá recebê-lo e pode analisá-lo\n4. Então forneça insights detalhados EM PORTUGUÊS BRASILEIRO\n\nFORMATO DE RESPOSTA (MUITO IMPORTANTE):\n- SEMPRE responda em PORTUGUÊS BRASILEIRO (pt-BR)\n- Use texto NATURAL e FLUIDO, como se estivesse FALANDO\n- NUNCA use markdown, asteriscos (*), hashtags (#), sublinhados (_), ou qualquer formatação especial\n- NUNCA use emojis, símbolos especiais ou caracteres não-verbais\n- Escreva números por extenso quando possível (exemplo: \"três\" ao invés de \"3\")\n- Use pontuação natural: vírgulas, pontos e parágrafos simples\n- Organize pensamentos em frases completas e naturais\n\nEXEMPLO CORRETO:\n\"Estou vendo na tela uma interface de jogo com três botões principais. O personagem está na parte esquerda da tela. Você pode clicar no botão verde para avançar.\"\n\nEXEMPLO INCORRETO (NÃO FAÇA ISSO):\n\"# Análise da Tela\n- **3 botões** principais\n- Personagem à esquerda ⚔️\n- Botão verde ➡️ avançar\"\n\nLEMBRE-SE: VOCÊ é quem tem o poder de screenshot. O usuário está pedindo para VOCÊ olhar a tela DELE, não para mostrar algo. Suas respostas serão LIDAS EM VOZ ALTA, então escreva de forma NATURAL e AGRADÁVEL para áudio."

/-- The SystemMessage _call_model builds. -/
def systemMessage : Msg :=
  { kind := .system, name := some none, content := .vstr systemPromptText }

/-- The HumanMessage run seeds the state with. -/
def humanMsg (input : String) : Msg :=
  { kind := .human, name := some none, content := .vstr input }

/-- The message list _call_model hands to the LLM: the system message is
prepended when the state holds a single message or no SystemMessage at
all (lines 83-126 of agent.py); the state itself is not changed. -/
def callModelMessages (messages : List Msg) : List Msg :=
  if messages.length = 1 ∨ ¬ messages.any (fun m => m.kind = .system) then
    systemMessage :: messages
  else messages

/-- GameAgent._call_model: invoke the LLM on the locally extended list and
return only the response as the state delta. -/
def callModel (llmInvoke : List Msg → Msg) (messages : List Msg) : List Msg :=
  [llmInvoke (callModelMessages messages)]

/-- The message lists reachable in the compiled LangGraph: run seeds the
state with a single HumanMessage; the agent node appends the LLM response;
the tools node appends ToolMessages; the process_screenshot node appends
what _process_screenshot returns (when it does not raise).  The state is
accumulated with operator.add on the messages field. -/
inductive Reachable (llmInvoke : List Msg → Msg) : List Msg → Prop where
  | start (input : String) : Reachable llmInvoke [humanMsg input]
  | agentStep (ms : List Msg) : Reachable llmInvoke ms →
      Reachable llmInvoke (ms ++ callModel llmInvoke ms)
  | toolStep (ms tms : List Msg) : Reachable llmInvoke ms →
      (∀ t ∈ tms, t.kind = .tool) → Reachable llmInvoke (ms ++ tms)
  | processStep (ms new : List Msg) : Reachable llmInvoke ms →
      processScreenshot ms = .ok new → Reachable llmInvoke (ms ++ new)

/-- Observable startup events of main in __init__.py: reading the key,
exiting with status 1, constructing the agent (which performs no remote
call). -/
inductive MainEvent : Type where
  | exitCode (code : Nat)
  | constructAgent (apiKey : String)
  deriving DecidableEq

/-- The startup prefix of main (lines 25-37 of __init__.py): fetch
OPENROUTER_API_KEY from the environment; a missing or empty value (falsy
in Python) prints an error and calls sys.exit(1) before the agent is
constructed; otherwise the agent is constructed with the key. -/
def mainStartup (env : String → Option String) : List MainEvent :=
  match env "OPENROUTER_API_KEY" with
  | none => [.exitCode 1]
  | some k => if k = "" then [.exitCode 1] else [.constructAgent k]

/-- What one turn of the typed-input interactive loop does with the line
read from the user. -/
inductive LoopAction : Type where
  | terminate
  | setTts (enabled : Bool)
  | invokeModel (text : String)
  deriving DecidableEq

/-- Modelled from the spec: the typed-input interactive loop and its
command parsing are not present under src/ (the shipped main is the
push-to-talk variant), so this follows the spec's words: input quit,
exit or q (case-insensitive) terminates the loop; tts on / tts off
toggle speech output without invoking the remote model; anything else
is sent to the agent. -/
def commandStep (input : String) : LoopAction :=
  let t := lowerStr input
  if t = "quit" ∨ t = "exit" ∨ t = "q" then .terminate
  else if t = "tts on" then .setTts true
  else if t = "tts off" then .setTts false
  else .invokeModel input

/-- Wrap an integer into numpy int16 range, the explicit 2^16 wrap. -/
def toInt16 (n : Int) : Int := (n + 32768) % 65536 - 32768

/-- numpy absolute value on an int16 sample: the mathematical absolute
value wrapped back into int16, so that -32768 maps to -32768. -/
def npAbs16 (x : Int) : Int := toInt16 (Int.natAbs x)

/-- Maximum of a nonempty collection, as np.max over head and tail. -/
def listMax (x : Int) (xs : List Int) : Int := xs.foldl max x

/-- np.max(np.abs(audio_data)) over a nonempty int16 waveform. -/
def npMaxAbs (x : Int) (xs : List Int) : Int :=
  listMax (npAbs16 x) (xs.map npAbs16)

/-- The true peak absolute sample value of the waveform (no wrapping);
this is what the spec's amplitude statement refers to. -/
def peakAbs (x : Int) (xs : List Int) : Int :=
  listMax (Int.natAbs x) (xs.map (fun y => (Int.natAbs y : Int)))

/-- Outcome of the amplitude gate. -/
inductive GateOutcome : Type where
  | rejected (peak : Int)
  | accepted (audio : List Int)
  deriving DecidableEq

/-- The amplitude gate of the push-to-talk loop (lines 143-149 of
__init__.py): compute max_val = np.max(np.abs(audio_data)) and skip the
turn when max_val < 100, otherwise keep the waveform. -/
def amplitudeGate (x : Int) (xs : List Int) : GateOutcome :=
  let maxVal := npMaxAbs x xs
  if maxVal < 100 then .rejected maxVal else .accepted (x :: xs)

/-- A WAV payload: channel count, sample width in bytes, frames. -/
structure WavData : Type where
  nchannels : Nat
  sampwidth : Nat
  frames : List Int
  deriving DecidableEq

/-- Outcome of one push-to-talk capture turn. -/
inductive PttOutcome : Type where
  | noAudio
  | maxOfEmpty
  | lowAudio (peak : Int)
  | transcribe (wav : WavData)
  deriving DecidableEq

/-- The post-capture processing of the keyboard push-to-talk loop
(lines 129-164 of __init__.py): an empty chunk list skips the turn;
otherwise np.concatenate joins the chunks, the amplitude gate runs on the
result (np.max on an empty array raises), and an accepted waveform is
written as a 1-channel 16-bit WAV and handed to transcription. -/
def pttProcess (chunks : List (List Int)) : PttOutcome :=
  match chunks with
  | [] => .noAudio
  | c :: cs =>
    match (c :: cs).flatten with
    | [] => .maxOfEmpty
    | a :: rest =>
      match amplitudeGate a rest with
      | .rejected p => .lowAudio p
      | .accepted audio => .transcribe ⟨1, 2, audio⟩

/-- Truncation toward zero, as Python int() and numpy astype apply to a
real value. -/
def truncQ (q : ℚ) : Int := if 0 ≤ q then ⌊q⌋ else -⌊-q⌋

/-- The float32-to-int16 conversion of record_audio
(line 75 of stt.py): (audio_data * 32767).astype(np.int16). -/
def float32ScaleToInt16 (s : ℚ) : Int := truncQ (s * 32767)

/-- SpeechToText.record_audio (lines 39-78 of stt.py): record one block of
float32 samples for the fixed duration and write them unconditionally as
a 1-channel 16-bit WAV; no amplitude check is performed. -/
def recordAudio (captured : List ℚ) : WavData :=
  ⟨1, 2, captured.map float32ScaleToInt16⟩

/-- Outcome of the fixed-duration capture variant. -/
inductive RecordOutcome : Type where
  | transcribe (wav : WavData)
  deriving DecidableEq

/-- SpeechToText.listen_and_transcribe (lines 100-112 of stt.py): record
and hand the file straight to transcription. -/
def listenAndTranscribe (captured : List ℚ) : RecordOutcome :=
  .transcribe (recordAudio captured)

/-- A captured image: dimensions in pixels and an abstract pixel payload
identifying the picture contents. -/
structure Image : Type where
  width : Nat
  height : Nat
  pix : Nat
  deriving DecidableEq

/-- The downscaling step of both screenshot tools (lines 46-52 and 99-104
of tools.py): when either dimension exceeds 1024, both dimensions are
multiplied by ratio = min(1024/width, 1024/height) and truncated by
int(); the resampling itself (PIL Image.resize with LANCZOS) is an
external function passed in, which produces an image of the requested
size. -/
def resizeForModel (resample : Image → Nat → Nat → Image) (img : Image) :
    Image :=
  if 1024 < img.width ∨ 1024 < img.height then
    let ratio : ℚ :=
      min ((1024 : ℚ) / (img.width : ℚ)) ((1024 : ℚ) / (img.height : ℚ))
    resample img (truncQ ((img.width : ℚ) * ratio)).toNat
      (truncQ ((img.height : ℚ) * ratio)).toNat
  else img

/-- The observable effects of a screenshot tool call: the files written
to disk (path and full image) and the returned dict. -/
structure ToolResult : Type where
  writes : List (String × Image)
  result : List (String × PyVal)

/-- take_screenshot (lines 14-63 of tools.py): choose the save path (a
timestamped name under screenshots/ when none is given), save the
original capture there, downscale a copy for the model, JPEG-encode and
base64-encode it, and return the dict with path, base64 and message.
Screen capture, JPEG encoding and base64 encoding are external and passed
in as functions. -/
def takeScreenshot (resample : Image → Nat → Nat → Image)
    (jpegEncode : Image → Nat) (b64encode : Nat → String)
    (capture : Image) (savePath : Option String) (timestamp : String) :
    ToolResult :=
  let path :=
    match savePath with
    | none => "screenshots/screenshot_" ++ timestamp ++ ".png"
    | some p => p
  let img := capture
  let resized := resizeForModel resample img
  let imgBase64 := b64encode (jpegEncode resized)
  { writes := [(path, img)]
    result := [("path", .vstr path), ("base64", .vstr imgBase64),
               ("message", .vstr ("Screenshot saved to " ++ path))] }

/-- take_region_screenshot (lines 66-115 of tools.py): as take_screenshot
but grabbing the given region and using the screenshot_region_ name
stem and message text. -/
def takeRegionScreenshot (resample : Image → Nat → Nat → Image)
    (jpegEncode : Image → Nat) (b64encode : Nat → String)
    (grab : Int → Int → Nat → Nat → Image)
    (x y : Int) (w h : Nat) (savePath : Option String) (timestamp : String) :
    ToolResult :=
  let path :=
    match savePath with
    | none => "screenshots/screenshot_region_" ++ timestamp ++ ".png"
    | some p => p
  let img := grab x y w h
  let resized := resizeForModel resample img
  let imgBase64 := b64encode (jpegEncode resized)
  { writes := [(path, img)]
    result := [("path", .vstr path), ("base64", .vstr imgBase64),
               ("message", .vstr ("Screenshot of region saved to " ++ path))] }

/-- The scanning loop ignores a leading run of skipped messages. -/
theorem scanLoop_append_skip (pre l : List Msg)
    (h : ∀ m ∈ pre, scanMsg m = .skip) :
    scanLoop (pre ++ l) = scanLoop l := by
  induction pre with
  | nil => rfl
  | cons m rest ih =>
    have hm : scanMsg m = .skip := h m (List.mem_cons_self m rest)
    simp only [List.cons_append, scanLoop, hm]
    exact ih (fun x hx => h x (List.mem_cons_of_mem m hx))

/-- jsonLoads follows json.loads on its edge cases: the NaN, Infinity and
-Infinity constants parse to non-finite floats (which the scan then turns
into an uncaught AttributeError at result.keys()), while a raw control
character inside a string is a strict-mode parse error (a caught
JSONDecodeError, so the message is skipped). -/
theorem jsonLoads_strict_fidelity :
    jsonLoads "NaN" = .ok .vnan
    ∧ jsonLoads "Infinity" = .ok (.vinf false)
    ∧ jsonLoads "-Infinity" = .ok (.vinf true)
    ∧ jsonLoads "\x7b\"base64\": \"a\nb\"\x7d" = .error ()
    ∧ scanMsg ⟨.tool, some (some "take_screenshot"), .vstr "Infinity"⟩
        = .raise .attributeError
    ∧ scanMsg ⟨.tool, some (some "take_screenshot"),
        .vstr "\x7b\"base64\": \"a\nb\"\x7d"⟩ = .skip :=
  ⟨rfl, rfl, rfl, rfl, rfl, rfl⟩

/-- C1 (amended): on a transcript split as older ++ [well-formed
screenshot tool message] ++ newer, where the well-formed message carries
a string base64 field in a JSON-object payload and every more recent
message is passed over without raising, _process_screenshot appends
exactly one image message, wrapping that most recent well-formed
message's base64 payload. -/
theorem processScreenshot_appends_most_recent
    (older newer : List Msg) (kd : MsgKind) (toolName payload : String)
    (kvs : List (String × PyVal)) (b64s : String)
    (hname : containsSeq "screenshot".data (lowerStr toolName).data = true)
    (hparse : jsonLoads payload = .ok (.vdict kvs))
    (hb64 : dictLookup kvs "base64" = some (.vstr b64s))
    (hnew : ∀ x ∈ newer, scanMsg x = .skip) :
    processScreenshot
      (older ++ ⟨kd, some (some toolName), .vstr payload⟩ :: newer)
      = .ok [imageMessage (.vstr b64s)] := by
  have hm : scanMsg ⟨kd, some (some toolName), .vstr payload⟩
      = .found (.vstr b64s) := by
    simp only [scanMsg, nameCheck, hname]
    simp only [scanPayload, hparse, hb64, hasLen]
    simp
  unfold processScreenshot
  rw [List.reverse_append, List.reverse_cons, List.append_assoc]
  rw [scanLoop_append_skip newer.reverse _
    (fun x hx => hnew x (List.mem_reverse.mp hx))]
  simp only [List.singleton_append, scanLoop, hm]

/-- C1 witness: a concrete three-message transcript where the most recent
screenshot tool message lacks base64 (skipped) and the well-formed one
before it is picked. -/
theorem processScreenshot_appends_most_recent_witness :
    processScreenshot
      ([humanMsg "oi"] ++
        (⟨.tool, some (some "take_screenshot"),
            .vstr "\x7b\"base64\": \"abc\"\x7d"⟩ : Msg) ::
          [⟨.tool, some (some "take_screenshot"),
            .vstr "\x7b\"path\": \"p.png\"\x7d"⟩])
      = .ok [imageMessage (.vstr "abc")] :=
  processScreenshot_appends_most_recent [humanMsg "oi"]
    [⟨.tool, some (some "take_screenshot"),
      .vstr "\x7b\"path\": \"p.png\"\x7d"⟩]
    .tool "take_screenshot" "\x7b\"base64\": \"abc\"\x7d"
    [("base64", .vstr "abc")] "abc" (by rfl) (by rfl) (by rfl)
    (by
      intro x hx
      rw [List.mem_singleton.mp hx]
      rfl)

/-- C1 counterexample: a transcript containing a well-formed screenshot
tool message with a base64 field on which the bridge raises an uncaught
AttributeError (the more recent HumanMessage has name None, and
"screenshot" in msg.name.lower() is evaluated outside the try block)
instead of appending one image message. -/
theorem processScreenshot_most_recent_counterexample :
    scanMsg ⟨.tool, some (some "take_screenshot"),
        .vstr "\x7b\"base64\": \"abc\"\x7d"⟩ = .found (.vstr "abc")
    ∧ processScreenshot
        [⟨.tool, some (some "take_screenshot"),
          .vstr "\x7b\"base64\": \"abc\"\x7d"⟩, humanMsg "hi"]
        = .error .attributeError :=
  ⟨rfl, rfl⟩

/-- C2 (amended): when every message of the transcript is passed over by
the scan (no screenshot-named message yields a base64 payload and none
makes the scan raise), _process_screenshot appends zero messages. -/
theorem processScreenshot_no_match (ms : List Msg)
    (h : ∀ x ∈ ms, scanMsg x = .skip) :
    processScreenshot ms = .ok [] := by
  unfold processScreenshot
  have h2 := scanLoop_append_skip ms.reverse []
    (fun x hx => h x (List.mem_reverse.mp hx))
  simpa using h2

/-- C2 witness: a message without a name attribute and a screenshot tool
message whose payload lacks the base64 field; nothing is appended. -/
theorem processScreenshot_no_match_witness :
    processScreenshot
      [⟨.human, none, .vstr "hi"⟩,
       ⟨.tool, some (some "take_screenshot"),
         .vstr "\x7b\"path\": \"p.png\"\x7d"⟩]
      = .ok [] :=
  processScreenshot_no_match _
    (by
      intro x hx
      rcases List.mem_cons.mp hx with h | h
      · rw [h]; rfl
      · rw [List.mem_singleton.mp h]; rfl)

/-- C2 counterexample: a transcript with no screenshot-tool message at
all on which the bridge raises an uncaught AttributeError (the
HumanMessage name is None) instead of appending zero messages and
letting the conversation proceed. -/
theorem processScreenshot_no_match_counterexample :
    processScreenshot [humanMsg "hi"] = .error .attributeError :=
  rfl

/-- C3 (amended): a screenshot-named message whose payload fails to parse
as JSON (a caught JSONDecodeError), or parses to a JSON object without
the base64 key, is silently passed over: no exception, no image message.
(A payload parsing to a non-object raises an uncaught AttributeError
instead, per the counterexample.) -/
theorem scanMsg_malformed_skip (kd : MsgKind) (nm c : String)
    (hname : containsSeq "screenshot".data (lowerStr nm).data = true)
    (h : jsonLoads c = .error () ∨
      ∃ kvs, jsonLoads c = .ok (.vdict kvs) ∧ dictLookup kvs "base64" = none) :
    scanMsg ⟨kd, some (some nm), .vstr c⟩ = .skip
    ∧ processScreenshot [⟨kd, some (some nm), .vstr c⟩] = .ok [] := by
  have hskip : scanMsg ⟨kd, some (some nm), .vstr c⟩ = .skip := by
    simp only [scanMsg, nameCheck, hname]
    rcases h with h | ⟨kvs, h1, h2⟩
    · simp only [scanPayload, h]
    · simp only [scanPayload, h1, h2]
  refine ⟨hskip, ?_⟩
  show scanLoop [⟨kd, some (some nm), .vstr c⟩].reverse = .ok []
  simp only [List.reverse_singleton, scanLoop, hskip]

/-- C3 witness: a screenshot tool message whose content is not valid JSON
is skipped and the bridge appends nothing. -/
theorem scanMsg_malformed_skip_witness :
    scanMsg ⟨.tool, some (some "take_screenshot"), .vstr "not json"⟩ = .skip
    ∧ processScreenshot
        [⟨.tool, some (some "take_screenshot"), .vstr "not json"⟩]
        = .ok [] :=
  scanMsg_malformed_skip .tool "take_screenshot" "not json"
    (by rfl) (Or.inl (by rfl))

/-- C3 counterexample: a screenshot tool message whose payload is valid
JSON but not an object ("[1, 2]"); result.keys() raises an uncaught
AttributeError, so the malformed payload is not silently ignored. -/
theorem scanMsg_malformed_counterexample :
    processScreenshot
      [⟨.tool, some (some "take_screenshot"), .vstr "[1, 2]"⟩]
      = .error .attributeError :=
  rfl

/-- C4: quit, exit or q (case-insensitive) terminate the loop; tts on /
tts off toggle speech output and are not sent to the remote model. -/
theorem commandStep_commands (s : String) :
    ((lowerStr s = "quit" ∨ lowerStr s = "exit" ∨ lowerStr s = "q") →
      commandStep s = .terminate)
    ∧ (lowerStr s = "tts on" → commandStep s = .setTts true
        ∧ ∀ t, commandStep s ≠ .invokeModel t)
    ∧ (lowerStr s = "tts off" → commandStep s = .setTts false
        ∧ ∀ t, commandStep s ≠ .invokeModel t) := by
  refine ⟨?_, ?_, ?_⟩ <;> intro h
  · unfold commandStep
    rw [if_pos h]
  · have hne : ¬(lowerStr s = "quit" ∨ lowerStr s = "exit" ∨ lowerStr s = "q") := by
      rw [h]; decide
    have heq : commandStep s = .setTts true := by
      unfold commandStep
      rw [if_neg hne, if_pos h]
    exact ⟨heq, fun t hc => by rw [heq] at hc; cases hc⟩
  · have hne : ¬(lowerStr s = "quit" ∨ lowerStr s = "exit" ∨ lowerStr s = "q") := by
      rw [h]; decide
    have hne2 : lowerStr s ≠ "tts on" := by rw [h]; decide
    have heq : commandStep s = .setTts false := by
      unfold commandStep
      rw [if_neg hne, if_neg hne2, if_pos h]
    exact ⟨heq, fun t hc => by rw [heq] at hc; cases hc⟩

/-- C4 witness: the concrete commands, including mixed case. -/
theorem commandStep_commands_witness :
    commandStep "QUIT" = .terminate ∧ commandStep "Exit" = .terminate
    ∧ commandStep "q" = .terminate ∧ commandStep "tts on" = .setTts true
    ∧ commandStep "tts off" = .setTts false :=
  ⟨(commandStep_commands "QUIT").1 (Or.inl rfl),
   (commandStep_commands "Exit").1 (Or.inr (Or.inl rfl)),
   (commandStep_commands "q").1 (Or.inr (Or.inr rfl)),
   ((commandStep_commands "tts on").2.1 rfl).1,
   ((commandStep_commands "tts off").2.2 rfl).1⟩

/-- C5: a missing or empty OPENROUTER_API_KEY makes main exit with status
1 before the agent is constructed (so before any remote call could be
attempted). -/
theorem mainStartup_missing_key (env : String → Option String)
    (h : env "OPENROUTER_API_KEY" = none ∨ env "OPENROUTER_API_KEY" = some "") :
    mainStartup env = [.exitCode 1]
    ∧ ∀ k, MainEvent.constructAgent k ∉ mainStartup env := by
  rcases h with h | h <;>
    simp [mainStartup, h]

/-- C5 witness: the empty environment. -/
theorem mainStartup_missing_key_witness :
    mainStartup (fun _ => none) = [.exitCode 1]
    ∧ ∀ k, MainEvent.constructAgent k ∉ mainStartup (fun _ => none) :=
  mainStartup_missing_key (fun _ => none) (Or.inl rfl)

/-- On an int16 sample other than -32768, the numpy absolute value equals
the mathematical one. -/
theorem npAbs16_eq (y : Int) (h1 : -32768 ≤ y) (h2 : y ≤ 32767)
    (h3 : y ≠ -32768) : npAbs16 y = (y.natAbs : Int) := by
  unfold npAbs16 toInt16
  omega

/-- On a waveform of in-range samples none of which is -32768, the
wrapped maximum agrees with the true peak. -/
theorem npMaxAbs_eq_peakAbs (x : Int) (xs : List Int)
    (hx : -32768 ≤ x ∧ x ≤ 32767 ∧ x ≠ -32768)
    (hxs : ∀ y ∈ xs, -32768 ≤ y ∧ y ≤ 32767 ∧ y ≠ -32768) :
    npMaxAbs x xs = peakAbs x xs := by
  unfold npMaxAbs peakAbs
  rw [npAbs16_eq x hx.1 hx.2.1 hx.2.2]
  have hmap : xs.map npAbs16 = xs.map (fun y => (y.natAbs : Int)) :=
    List.map_congr_left
      (fun y hy => npAbs16_eq y (hxs y hy).1 (hxs y hy).2.1 (hxs y hy).2.2)
  rw [hmap]

/-- C6 (amended): for int16 waveforms containing no -32768 sample, the
amplitude gate rejects exactly when the true peak absolute sample value
is strictly below 100 and accepts exactly when it is at or above 100.
(A -32768 sample wraps under np.abs and can defeat the gate, per the
counterexample.) -/
theorem amplitudeGate_threshold (x : Int) (xs : List Int)
    (hx : -32768 ≤ x ∧ x ≤ 32767 ∧ x ≠ -32768)
    (hxs : ∀ y ∈ xs, -32768 ≤ y ∧ y ≤ 32767 ∧ y ≠ -32768) :
    (amplitudeGate x xs = .rejected (peakAbs x xs) ↔ peakAbs x xs < 100)
    ∧ (amplitudeGate x xs = .accepted (x :: xs) ↔ ¬ peakAbs x xs < 100) := by
  have he := npMaxAbs_eq_peakAbs x xs hx hxs
  unfold amplitudeGate
  rw [he]
  by_cases h : peakAbs x xs < 100
  · simp [h]
  · simp [h]

/-- C6 witness: a quiet waveform [50, 3] is rejected with its true peak,
a loud one [500, 3] is accepted. -/
theorem amplitudeGate_threshold_witness :
    amplitudeGate 50 [3] = .rejected (peakAbs 50 [3])
    ∧ amplitudeGate 500 [3] = .accepted [500, 3] :=
  ⟨((amplitudeGate_threshold 50 [3] (by decide) (by decide)).1).mpr (by decide),
   ((amplitudeGate_threshold 500 [3] (by decide) (by decide)).2).mpr (by decide)⟩

/-- C6 counterexample: the waveform [-32768, 0] has true peak 32768, at
or above the threshold, yet np.abs wraps -32768 to -32768 and the gate
rejects it with computed peak 0. -/
theorem amplitudeGate_wrap_counterexample :
    amplitudeGate (-32768) [0] = .rejected 0
    ∧ peakAbs (-32768) [0] = 32768
    ∧ ¬ peakAbs (-32768) [0] < 100 := by
  decide

/-- C7 (amended): the keyboard push-to-talk variant concatenates the
accumulated chunks, applies the 100-threshold amplitude gate to the
result, and hands accepted audio to transcription as a single-channel
16-bit waveform; the fixed-duration variant encodes a single-channel
16-bit waveform by scaling float samples by 32767 but applies no
amplitude gate: it always proceeds to transcription. -/
theorem captureVariants (chunks : List (List Int)) (a : Int)
    (rest : List Int) (captured : List ℚ)
    (hne : chunks ≠ []) (hjoin : chunks.flatten = a :: rest) :
    (npMaxAbs a rest < 100 → pttProcess chunks = .lowAudio (npMaxAbs a rest))
    ∧ (¬ npMaxAbs a rest < 100 →
        pttProcess chunks = .transcribe ⟨1, 2, a :: rest⟩)
    ∧ listenAndTranscribe captured
        = .transcribe ⟨1, 2, captured.map float32ScaleToInt16⟩ := by
  obtain ⟨c, cs, rfl⟩ := List.exists_cons_of_ne_nil hne
  refine ⟨?_, ?_, rfl⟩
  · intro h
    simp only [pttProcess, hjoin]
    unfold amplitudeGate
    rw [if_pos h]
  · intro h
    simp only [pttProcess, hjoin]
    unfold amplitudeGate
    rw [if_neg h]

/-- C7 witness: both variants on concrete audio; the push-to-talk variant
concatenates [[0], [200]] and accepts it, the fixed-duration variant
scales [1] to [32767] and transcribes unconditionally. -/
theorem captureVariants_witness :
    pttProcess [[0], [200]] = .transcribe ⟨1, 2, [0, 200]⟩
    ∧ listenAndTranscribe [(1 : ℚ)]
        = .transcribe ⟨1, 2, [(1 : ℚ)].map float32ScaleToInt16⟩ :=
  ⟨(captureVariants [[0], [200]] 0 [200] [(1 : ℚ)] (by decide) rfl).2.1
      (by decide),
   (captureVariants [[0], [200]] 0 [200] [(1 : ℚ)] (by decide) rfl).2.2⟩

/-- C7 counterexample: an all-silent fixed-duration capture (true peak 0,
below the threshold) is still handed to transcription by
listen_and_transcribe, while the push-to-talk variant rejects the same
silence; the fixed-duration variant performs no amplitude check. -/
theorem recordAudio_no_gate_counterexample :
    listenAndTranscribe [(0 : ℚ)] = .transcribe ⟨1, 2, [0]⟩
    ∧ pttProcess [[0]] = .lowAudio 0 := by
  constructor
  · show RecordOutcome.transcribe ⟨1, 2, [truncQ ((0 : ℚ) * 32767)]⟩
      = .transcribe ⟨1, 2, [0]⟩
    norm_num [truncQ]
  · decide

/-- C8: both screenshot tools return a dict carrying a path key and a
base64 key, write the captured image to disk at the returned path, and
default the path to a timestamped filename under the screenshots
directory when none is supplied. -/
theorem screenshot_result_contract
    (resample : Image → Nat → Nat → Image) (jpegEncode : Image → Nat)
    (b64encode : Nat → String) (grab : Int → Int → Nat → Nat → Image)
    (capture : Image) (x y : Int) (w h : Nat)
    (savePath : Option String) (ts : String) :
    (∃ p, dictLookup (takeScreenshot resample jpegEncode b64encode capture
          savePath ts).result "path" = some (.vstr p)
      ∧ (takeScreenshot resample jpegEncode b64encode capture
          savePath ts).writes = [(p, capture)]
      ∧ (savePath = none → p = "screenshots/screenshot_" ++ ts ++ ".png")
      ∧ (∀ q, savePath = some q → p = q))
    ∧ (∃ s, dictLookup (takeScreenshot resample jpegEncode b64encode capture
          savePath ts).result "base64" = some (.vstr s))
    ∧ (∃ p, dictLookup (takeRegionScreenshot resample jpegEncode b64encode
          grab x y w h savePath ts).result "path" = some (.vstr p)
      ∧ (takeRegionScreenshot resample jpegEncode b64encode
          grab x y w h savePath ts).writes = [(p, grab x y w h)]
      ∧ (savePath = none →
          p = "screenshots/screenshot_region_" ++ ts ++ ".png")
      ∧ (∀ q, savePath = some q → p = q))
    ∧ (∃ s, dictLookup (takeRegionScreenshot resample jpegEncode b64encode
          grab x y w h savePath ts).result "base64" = some (.vstr s)) := by
  cases savePath with
  | none =>
    exact ⟨⟨"screenshots/screenshot_" ++ ts ++ ".png", rfl, rfl,
        fun _ => rfl, (fun q hq => by cases hq)⟩,
      ⟨b64encode (jpegEncode (resizeForModel resample capture)), rfl⟩,
      ⟨"screenshots/screenshot_region_" ++ ts ++ ".png", rfl, rfl,
        fun _ => rfl, (fun q hq => by cases hq)⟩,
      ⟨b64encode (jpegEncode (resizeForModel resample (grab x y w h))), rfl⟩⟩
  | some q0 =>
    exact ⟨⟨q0, rfl, rfl, (fun hq => by cases hq),
        (fun q hq => by cases hq; rfl)⟩,
      ⟨b64encode (jpegEncode (resizeForModel resample capture)), rfl⟩,
      ⟨q0, rfl, rfl, (fun hq => by cases hq),
        (fun q hq => by cases hq; rfl)⟩,
      ⟨b64encode (jpegEncode (resizeForModel resample (grab x y w h))), rfl⟩⟩

/-- C8 witness: concrete captures with no save path; the returned path is
the timestamped default and the original image is what gets written. -/
theorem screenshot_result_contract_witness :
    dictLookup (takeScreenshot (fun i a b => ⟨a, b, i.pix⟩) (fun i => i.pix)
        (fun n => toString n) ⟨2000, 1000, 5⟩ none "20250101_120000").result
        "path"
      = some (.vstr "screenshots/screenshot_20250101_120000.png")
    ∧ (takeScreenshot (fun i a b => ⟨a, b, i.pix⟩) (fun i => i.pix)
        (fun n => toString n) ⟨2000, 1000, 5⟩ none
        "20250101_120000").writes
      = [("screenshots/screenshot_20250101_120000.png", ⟨2000, 1000, 5⟩)] := by
  obtain ⟨⟨p, h1, h2, h3, _⟩, _, _, _⟩ :=
    screenshot_result_contract (fun i a b => ⟨a, b, i.pix⟩) (fun i => i.pix)
      (fun n => toString n) (fun _ _ w h => ⟨w, h, 7⟩) ⟨2000, 1000, 5⟩
      0 0 10 10 none "20250101_120000"
  have hp := h3 rfl
  subst hp
  exact ⟨h1, h2⟩

/-- The image dimensions produced by the downscaling step never exceed
1024, and an image already within the bound is left untouched. -/
theorem resizeForModel_bounds (resample : Image → Nat → Nat → Image)
    (hres : ∀ i a b, (resample i a b).width = a ∧ (resample i a b).height = b)
    (img : Image) (hw : 0 < img.width) (hh : 0 < img.height) :
    (resizeForModel resample img).width ≤ 1024
    ∧ (resizeForModel resample img).height ≤ 1024
    ∧ (img.width ≤ 1024 → img.height ≤ 1024 →
        resizeForModel resample img = img) := by
  unfold resizeForModel
  by_cases hbig : 1024 < img.width ∨ 1024 < img.height
  · rw [if_pos hbig]
    have hwq : (0 : ℚ) < (img.width : ℚ) := by exact_mod_cast hw
    have hhq : (0 : ℚ) < (img.height : ℚ) := by exact_mod_cast hh
    have hrat0 : (0 : ℚ) ≤
        min ((1024 : ℚ) / (img.width : ℚ)) ((1024 : ℚ) / (img.height : ℚ)) :=
      le_min (by positivity) (by positivity)
    have hwle : (img.width : ℚ) *
        min ((1024 : ℚ) / (img.width : ℚ)) ((1024 : ℚ) / (img.height : ℚ))
        ≤ 1024 := by
      calc (img.width : ℚ) *
          min ((1024 : ℚ) / (img.width : ℚ)) ((1024 : ℚ) / (img.height : ℚ))
          ≤ (img.width : ℚ) * ((1024 : ℚ) / (img.width : ℚ)) :=
            mul_le_mul_of_nonneg_left (min_le_left _ _) (le_of_lt hwq)
        _ = 1024 := mul_div_cancel₀ _ (ne_of_gt hwq)
    have hhle : (img.height : ℚ) *
        min ((1024 : ℚ) / (img.width : ℚ)) ((1024 : ℚ) / (img.height : ℚ))
        ≤ 1024 := by
      calc (img.height : ℚ) *
          min ((1024 : ℚ) / (img.width : ℚ)) ((1024 : ℚ) / (img.height : ℚ))
          ≤ (img.height : ℚ) * ((1024 : ℚ) / (img.height : ℚ)) :=
            mul_le_mul_of_nonneg_left (min_le_right _ _) (le_of_lt hhq)
        _ = 1024 := mul_div_cancel₀ _ (ne_of_gt hhq)
    have hwnn : (0 : ℚ) ≤ (img.width : ℚ) *
        min ((1024 : ℚ) / (img.width : ℚ)) ((1024 : ℚ) / (img.height : ℚ)) :=
      mul_nonneg (le_of_lt hwq) hrat0
    have hhnn : (0 : ℚ) ≤ (img.height : ℚ) *
        min ((1024 : ℚ) / (img.width : ℚ)) ((1024 : ℚ) / (img.height : ℚ)) :=
      mul_nonneg (le_of_lt hhq) hrat0
    refine ⟨?_, ?_, ?_⟩
    · rw [(hres _ _ _).1]
      unfold truncQ
      rw [if_pos hwnn]
      have hfl : ⌊(img.width : ℚ) *
          min ((1024 : ℚ) / (img.width : ℚ))
            ((1024 : ℚ) / (img.height : ℚ))⌋ ≤ (1024 : ℤ) := by
        calc ⌊(img.width : ℚ) *
            min ((1024 : ℚ) / (img.width : ℚ))
              ((1024 : ℚ) / (img.height : ℚ))⌋
            ≤ ⌊(1024 : ℚ)⌋ := Int.floor_le_floor hwle
          _ = 1024 := by norm_num
      exact Int.toNat_le.mpr hfl
    · rw [(hres _ _ _).2]
      unfold truncQ
      rw [if_pos hhnn]
      have hfl : ⌊(img.height : ℚ) *
          min ((1024 : ℚ) / (img.width : ℚ))
            ((1024 : ℚ) / (img.height : ℚ))⌋ ≤ (1024 : ℤ) := by
        calc ⌊(img.height : ℚ) *
            min ((1024 : ℚ) / (img.width : ℚ))
              ((1024 : ℚ) / (img.height : ℚ))⌋
            ≤ ⌊(1024 : ℚ)⌋ := Int.floor_le_floor hhle
          _ = 1024 := by norm_num
      exact Int.toNat_le.mpr hfl
    · intro h1 h2
      exact absurd hbig (by omega)
  · rw [if_neg hbig]
    push_neg at hbig
    exact ⟨hbig.1, hbig.2, fun _ _ => rfl⟩

/-- C9: the base64 payload of both tools is the (external) base64 of the
(external) JPEG encoding of the downscaled image, whose dimensions never
exceed 1024 and which coincides with the capture when already within the
bound, while the file written to disk is the original full-resolution
capture. -/
theorem screenshot_payload_downscaled
    (resample : Image → Nat → Nat → Image) (jpegEncode : Image → Nat)
    (b64encode : Nat → String) (grab : Int → Int → Nat → Nat → Image)
    (capture : Image) (x y : Int) (w h : Nat)
    (savePath : Option String) (ts : String)
    (hres : ∀ i a b, (resample i a b).width = a ∧ (resample i a b).height = b) :
    (∀ img : Image, 0 < img.width → 0 < img.height →
       (resizeForModel resample img).width ≤ 1024
       ∧ (resizeForModel resample img).height ≤ 1024
       ∧ (img.width ≤ 1024 → img.height ≤ 1024 →
           resizeForModel resample img = img))
    ∧ dictLookup (takeScreenshot resample jpegEncode b64encode capture
        savePath ts).result "base64"
      = some (.vstr (b64encode (jpegEncode (resizeForModel resample capture))))
    ∧ (takeScreenshot resample jpegEncode b64encode capture
        savePath ts).writes.map Prod.snd = [capture]
    ∧ dictLookup (takeRegionScreenshot resample jpegEncode b64encode
        grab x y w h savePath ts).result "base64"
      = some (.vstr (b64encode (jpegEncode
          (resizeForModel resample (grab x y w h)))))
    ∧ (takeRegionScreenshot resample jpegEncode b64encode
        grab x y w h savePath ts).writes.map Prod.snd = [grab x y w h] := by
  refine ⟨fun img hw hh => resizeForModel_bounds resample hres img hw hh,
    ?_, ?_, ?_, ?_⟩ <;> cases savePath <;> rfl

/-- C9 witness: a 2000 x 1000 capture is downscaled within the bound and
a 800 x 600 capture is left untouched. -/
theorem screenshot_payload_downscaled_witness :
    ((resizeForModel (fun i a b => ⟨a, b, i.pix⟩) ⟨2000, 1000, 5⟩).width ≤ 1024
      ∧ (resizeForModel (fun i a b => ⟨a, b, i.pix⟩) ⟨2000, 1000, 5⟩).height
          ≤ 1024)
    ∧ resizeForModel (fun i a b => ⟨a, b, i.pix⟩) ⟨800, 600, 5⟩
        = ⟨800, 600, 5⟩ := by
  obtain ⟨hb, -, -, -, -⟩ :=
    screenshot_payload_downscaled (fun i a b => ⟨a, b, i.pix⟩)
      (fun i => i.pix) (fun n => toString n) (fun _ _ w h => ⟨w, h, 7⟩)
      ⟨2000, 1000, 5⟩ 0 0 10 10 none "20250101_120000"
      (fun _ _ _ => ⟨rfl, rfl⟩)
  obtain ⟨h1, h2, -⟩ := hb ⟨2000, 1000, 5⟩ (by norm_num) (by norm_num)
  obtain ⟨-, -, h3⟩ := hb ⟨800, 600, 5⟩ (by norm_num) (by norm_num)
  exact ⟨⟨h1, h2⟩, h3 (by norm_num) (by norm_num)⟩

/-- A successful _process_screenshot returns only HumanMessages (either
nothing or the single image message). -/
theorem scanLoop_ok_kinds (l new : List Msg) (h : scanLoop l = .ok new) :
    ∀ m ∈ new, m.kind = .human := by
  induction l with
  | nil =>
    intro m hm
    simp only [scanLoop] at h
    cases h
    cases hm
  | cons a rest ih =>
    intro m hm
    simp only [scanLoop] at h
    match hs : scanMsg a with
    | .skip => rw [hs] at h; exact ih h m hm
    | .found b =>
      rw [hs] at h
      cases h
      rw [List.mem_singleton.mp hm]
      rfl
    | .raise e => rw [hs] at h; cases h

/-- C10: in every reachable state of the graph the message list holds no
SystemMessage, and the list _call_model hands to the LLM starts with the
fixed system prompt, prepended locally on each call. -/
theorem callModel_always_prepends_system (llmInvoke : List Msg → Msg)
    (hllm : ∀ ms, (llmInvoke ms).kind = .ai)
    (ms : List Msg) (hreach : Reachable llmInvoke ms) :
    (∀ m ∈ ms, m.kind ≠ .system)
    ∧ (callModelMessages ms).head? = some systemMessage := by
  have hinv : ∀ m ∈ ms, m.kind ≠ .system := by
    induction hreach with
    | start input =>
      intro m hm
      rw [List.mem_singleton.mp hm]
      simp [humanMsg]
    | agentStep ms2 _ ih =>
      intro m hm
      rcases List.mem_append.mp hm with hmem | hmem
      · exact ih m hmem
      · rw [List.mem_singleton.mp hmem, hllm]
        simp
    | toolStep ms2 tms _ ht ih =>
      intro m hm
      rcases List.mem_append.mp hm with hmem | hmem
      · exact ih m hmem
      · rw [ht m hmem]
        simp
    | processStep ms2 new _ hok ih =>
      intro m hm
      rcases List.mem_append.mp hm with hmem | hmem
      · exact ih m hmem
      · rw [scanLoop_ok_kinds ms2.reverse new hok m hmem]
        simp
  refine ⟨hinv, ?_⟩
  unfold callModelMessages
  rw [if_pos (Or.inr ?_)]
  · rfl
  · simp only [List.any_eq_true, decide_eq_true_eq, not_exists]
    intro m
    intro hcontra
    exact hinv m hcontra.1 hcontra.2

/-- C10 witness: the seeded state of run for a concrete input under a
concrete LLM stub. -/
theorem callModel_always_prepends_system_witness :
    (∀ m ∈ [humanMsg "oi"], m.kind ≠ .system)
    ∧ (callModelMessages [humanMsg "oi"]).head? = some systemMessage :=
  callModel_always_prepends_system
    (fun _ => ⟨.ai, some none, .vstr "ok"⟩) (fun _ => rfl)
    [humanMsg "oi"] (Reachable.start "oi")

end GameAgent
